import Mathlib

/-!
Shallow embedding of the ModularAI mediator (`src/core/module_controller.py`)
and the GPT-2 back end's capability negotiation
(`src/models/gpt2/gpt2_model.py`), with theorems settling the frozen claims
about the capability check, the two relay loops, notification handling and
shutdown.

Conventions used throughout:
* Python dicts that travel on the wire are modelled as association lists of
  `String × Json` in insertion order (the order `json.dumps` serialises).
  Lists produced by `json.loads` have pairwise-distinct keys, since they
  come from a Python dict; lemmas that need this take it as a hypothesis.
* A line read by `readline()` is classified by how
  `json.loads(data.decode('utf-8'))` behaves on it: the byte string may not
  be valid UTF-8 (`decode` raises `UnicodeDecodeError`), may be UTF-8 text
  that is not valid JSON (`json.loads` raises `JSONDecodeError`), or may
  parse to a JSON value.
* Each relay loop is a function from the list of read events its source
  endpoint will deliver (data lines, possibly followed by an empty read
  when the source reached end-of-stream while the loop was blocked in
  `readline`) to its final state; the state records the shared `running`
  flag, whether the destination writer is closing, whether a `close()` of
  the session has been scheduled, the log records emitted, and the lines
  written to the destination.
-/

namespace ModularAI

/-- A JSON value as produced by `json.loads`. Numbers keep their source
literal, since no code under scrutiny inspects numeric values. -/
inductive Json where
  | null
  | bool (b : Bool)
  | num (lit : String)
  | str (s : String)
  | arr (elems : List Json)
  | obj (fields : List (String × Json))

/-- `d.get(key)` on a dict modelled as an association list: the value at
the first matching key, if any. -/
def lookupField : List (String × Json) → String → Option Json
  | [], _ => none
  | (k, v) :: rest, key => if k = key then some v else lookupField rest key

/-- `d[key] = v` on a dict modelled as an association list: replace the
value at an existing key in place, otherwise append the new key at the
end (Python dict insertion-order semantics). -/
def setField : List (String × Json) → String → Json → List (String × Json)
  | [], key, v => [(key, v)]
  | (k, w) :: rest, key, v =>
      if k = key then (key, v) :: rest else (k, w) :: setField rest key v

/-- Whether an optional JSON value is the given string — the truth value of
Python's `d.get(key) == s` (equality with a `str` holds only for a `str`). -/
def isStrVal (v : Option Json) (s : String) : Bool :=
  match v with
  | some (.str t) => t = s
  | _ => false

/-- The controller's protocol version, `ModuleController.PROTOCOL_VERSION`. -/
def PROTOCOL_VERSION : String := "1.0.0"

/-- `GPT2Model.CAPABILITIES`: the GPT-2 back end's advertised support map. -/
def gpt2CAPABILITIES : List (String × Bool) :=
  [("text_io", true), ("structured_output", false), ("language_understanding", true)]

/-- Truth value of `capability in CAPABILITIES and CAPABILITIES[capability]`:
a capability counts as supported when the support map has it mapped to
`True`; absent or `False` both count as unsupported. -/
def supportsCap (CAPABILITIES : List (String × Bool)) (c : String) : Bool :=
  match CAPABILITIES.lookup c with
  | some b => b
  | none => false

/-- The `interface_capabilities` dict handed to
`GPT2Model.check_compatibility`: the two keys the code reads, each
present or absent, plus the names of any unrelated keys (needed only for
Python's emptiness test `not interface_capabilities`). -/
structure CapDict where
  required_capabilities : Option (List String)
  optional_capabilities : Option (List String)
  other_keys : List String

/-- Python's `not interface_capabilities`: the dict is empty. -/
def CapDict.isEmpty (d : CapDict) : Bool :=
  d.required_capabilities.isNone && d.optional_capabilities.isNone && d.other_keys.isEmpty

/-- The empty capability dict `{}`. -/
def CapDict.empty : CapDict := ⟨none, none, []⟩

namespace GPT2Model

/-- `GPT2Model.check_compatibility(interface_capabilities)`, parametrised by
the model's `CAPABILITIES` support map. Returns `(is_compatible, message)`.
The required-capability loop returns at the first unsupported name; the
optional-capability loop accumulates every unsupported name. -/
def check_compatibility (CAPABILITIES : List (String × Bool))
    (interface_capabilities : CapDict) : Bool × String :=
  if interface_capabilities.isEmpty then
    (true, "No capability requirements specified")
  else
    match (interface_capabilities.required_capabilities.getD []).find?
        (fun capability => ! supportsCap CAPABILITIES capability) with
    | some capability =>
        (false, "Required capability '" ++ capability ++ "' not supported")
    | none =>
        let missing_optional :=
          (interface_capabilities.optional_capabilities.getD []).filter
            (fun capability => ! supportsCap CAPABILITIES capability)
        if missing_optional.isEmpty then
          (true, "Fully compatible")
        else
          (true, "Compatible, but missing optional capabilities: "
            ++ String.intercalate ", " missing_optional)

end GPT2Model

/-- The missing-required list of the spec's negotiation algorithm (§4.2):
every name in the required list that the support map lacks or maps to
false. Stated from the spec's words, to compare with what
`GPT2Model.check_compatibility` actually reports. -/
def missingRequired (support : List (String × Bool)) (required : List String) :
    List String :=
  required.filter (fun c => ! supportsCap support c)

/-- A front end as the controller sees it: `get_capabilities` is `none` when
the object has no such attribute (the controller then uses `{}`). -/
structure InterfaceVal where
  get_capabilities : Option CapDict

/-- A back end as the controller sees it: its support map, and whether it
exposes a `check_compatibility` attribute (the GPT-2 model does; a model
without one is accepted unchecked). -/
structure ModelVal where
  CAPABILITIES : List (String × Bool)
  has_check_compatibility : Bool

/-- One relay task held in `self.tasks`. -/
structure RelayTask where
  done : Bool
  cancelled : Bool

/-- A stream writer, as far as the controller observes it: whether
`is_closing()` holds. -/
structure Writer where
  closing : Bool

/-- The mutable fields of a `ModuleController` instance. -/
structure ControllerState where
  interface : Option InterfaceVal
  model : Option ModelVal
  interface_reader : Option Unit
  interface_writer : Option Writer
  model_reader : Option Unit
  model_writer : Option Writer
  running : Bool
  tasks : List RelayTask

namespace ModuleController

/-- `ModuleController.check_compatibility()`: requires both sides connected,
takes the interface's capabilities (or `{}` when it has no
`get_capabilities`), and defers to the model's `check_compatibility` when
it has one. The connected model's check is `GPT2Model.check_compatibility`
over its support map. -/
def check_compatibility (s : ControllerState) : Bool × String :=
  match s.interface, s.model with
  | some i, some m =>
      let interface_capabilities := i.get_capabilities.getD CapDict.empty
      if m.has_check_compatibility then
        GPT2Model.check_compatibility m.CAPABILITIES interface_capabilities
      else
        (true, "No compatibility checking available")
  | _, _ => (false, "Interface or model not connected")

/-- `ModuleController.start_mediation()`: refuses when a side is missing,
when a stream is missing, or when the compatibility check fails — in each
case returning `False` with the state untouched; otherwise sets `running`
and creates the two relay tasks. -/
def start_mediation (s : ControllerState) : Bool × ControllerState :=
  if s.interface.isNone || s.model.isNone then
    (false, s)
  else if s.interface_reader.isNone || s.interface_writer.isNone
      || s.model_reader.isNone || s.model_writer.isNone then
    (false, s)
  else
    let (is_compatible, _message) := check_compatibility s
    if !is_compatible then
      (false, s)
    else
      (true, { s with running := true,
                      tasks := s.tasks ++ [⟨false, false⟩, ⟨false, false⟩] })

/-- `ModuleController.close()`: flips `running` off, cancels unfinished
tasks, closes each still-open writer, then clears every reference and the
task set. -/
def close (s : ControllerState) : ControllerState :=
  let cancelPending := fun (t : RelayTask) =>
    if !t.done then { t with cancelled := true } else t
  let closeWriter := fun (w : Writer) =>
    if !w.closing then { w with closing := true } else w
  let s₁ := { s with running := false }
  let s₂ := { s₁ with tasks := s₁.tasks.map cancelPending }
  let s₃ := { s₂ with model_writer := s₂.model_writer.map closeWriter }
  let s₄ := { s₃ with interface_writer := s₃.interface_writer.map closeWriter }
  { s₄ with interface := none, model := none,
            interface_reader := none, interface_writer := none,
            model_reader := none, model_writer := none,
            tasks := [] }

end ModuleController

/-- One line delivered by `readline()`, classified by how
`json.loads(data.decode('utf-8'))` behaves on it. A `json` line carries
both its raw text (what the relay forwards when it does not re-encode)
and its parsed value. -/
inductive Msg where
  | notUtf8 (bytes : List Nat)
  | notJson (text : String)
  | json (text : String) (value : Json)

/-- The raw line a message was read as, when the bytes decode as UTF-8. -/
def Msg.rawText : Msg → Option String
  | .notUtf8 _ => none
  | .notJson t => some t
  | .json t _ => some t

/-- One event a relay loop's source endpoint delivers: a data line, or an
empty read (the source reached end-of-stream while the loop was blocked in
`readline`). A trace that ends without `eof` models the loop instead
observing `at_eof()` at the top of the `while`. -/
inductive ReadEvent where
  | data (m : Msg)
  | eof

/-- A line written to a destination endpoint: either raw bytes forwarded
unchanged, or a re-encoded (`json.dumps` + newline) JSON value. -/
inductive Out where
  | bytes (t : String)
  | encoded (j : Json)

/-- Severities of the log records a relay iteration can emit. -/
inductive LogLevel where
  | critical
  | error
  | warning
  | info
  | debug

/-- The state one relay loop reads and mutates: the shared `running` flag,
`is_closing()` of the destination writer, whether a `close()` task has
been scheduled, the log records emitted so far, and the lines written to
the destination so far. -/
structure RelayState where
  running : Bool
  destClosing : Bool
  closeScheduled : Bool
  logs : List LogLevel
  sent : List Out

namespace ModuleController

/-- The parse-and-stamp step of one `relay_to_model` iteration (lines
186–195): `none` when the line raises outside `json.JSONDecodeError`
(a non-UTF-8 line), the data to write otherwise — a dict gains
`_controller_version` and is re-encoded, everything else keeps its raw
bytes. -/
def processToModel (m : Msg) : Option Out :=
  match m with
  | .notUtf8 _ => none
  | .notJson t => some (.bytes t)
  | .json t j =>
      match j with
      | .obj fields =>
          some (.encoded (.obj (setField fields "_controller_version"
            (.str PROTOCOL_VERSION))))
      | _ => some (.bytes t)

/-- `ModuleController.handle_controller_notification(notification)`:
the log record it emits and whether it schedules `close()` of the
session (`asyncio.create_task(self.close())`). -/
def handle_controller_notification (notification : List (String × Json)) :
    LogLevel × Bool :=
  if isStrVal (lookupField notification "notification_type") "critical_error" then
    (.critical, true)
  else if isStrVal (lookupField notification "notification_type") "status" then
    (.info, false)
  else
    (.debug, false)

/-- The effects of inspecting one line in a `relay_to_interface` iteration. -/
structure MsgEffects where
  logs : List LogLevel
  scheduleClose : Bool
  forward : Option String

/-- The parse-and-inspect step of one `relay_to_interface` iteration (lines
238–250): a non-UTF-8 line raises outside `json.JSONDecodeError` (logged
as an error, nothing forwarded); a dict whose `message_type` is
`"controller_notification"` is handed to the notification handler and
withheld exactly when its `notification_type` is in `["controller_only"]`;
every other line is forwarded as its raw bytes. -/
def processToInterface (m : Msg) : MsgEffects :=
  match m with
  | .notUtf8 _ => ⟨[.error], false, none⟩
  | .notJson t => ⟨[], false, some t⟩
  | .json t j =>
      match j with
      | .obj fields =>
          if isStrVal (lookupField fields "message_type") "controller_notification" then
            let (level, sched) := handle_controller_notification fields
            if isStrVal (lookupField fields "notification_type") "controller_only" then
              ⟨[level], sched, none⟩
            else
              ⟨[level], sched, some t⟩
          else
            ⟨[], false, some t⟩
      | _ => ⟨[], false, some t⟩

/-- `ModuleController.relay_to_model()` run over the events its source
(the interface endpoint) delivers. An empty read flips `running` off,
closes the destination writer and breaks; a processing exception is
logged and the loop continues without writing; a write against a closing
destination logs a warning and breaks. -/
def relay_to_model (s : RelayState) : List ReadEvent → RelayState
  | [] => s
  | ev :: rest =>
      if s.running then
        match ev with
        | .eof => { s with running := false, destClosing := true }
        | .data m =>
            match processToModel m with
            | none => relay_to_model { s with logs := s.logs ++ [.error] } rest
            | some out =>
                if s.destClosing then
                  { s with logs := s.logs ++ [.warning] }
                else
                  relay_to_model { s with sent := s.sent ++ [out] } rest
      else s

/-- `ModuleController.relay_to_interface()` run over the events its source
(the model endpoint) delivers. Mirrors `relay_to_model` except that lines
are never rewritten — only inspected for controller notifications — and a
withheld (`controller_only`) line makes the loop `continue`. -/
def relay_to_interface (s : RelayState) : List ReadEvent → RelayState
  | [] => s
  | ev :: rest =>
      if s.running then
        match ev with
        | .eof => { s with running := false, destClosing := true }
        | .data m =>
            let eff := processToInterface m
            let s' := { s with logs := s.logs ++ eff.logs,
                               closeScheduled := s.closeScheduled || eff.scheduleClose }
            match eff.forward with
            | none => relay_to_interface s' rest
            | some t =>
                if s'.destClosing then
                  { s' with logs := s'.logs ++ [.warning] }
                else
                  relay_to_interface { s' with sent := s'.sent ++ [.bytes t] } rest
      else s

end ModuleController

/-- The first element of a filtered list is the first element satisfying the
filter. -/
theorem head?_filter_eq_find? (p : α → Bool) :
    ∀ l : List α, (l.filter p).head? = l.find? p := by
  intro l
  induction l with
  | nil => rfl
  | cons a t ih =>
      by_cases h : p a
      · simp [List.filter_cons, h, List.find?_cons, List.head?]
      · simp [List.filter_cons, h, List.find?_cons, ih]

/-- A concrete mediation setup whose front end requires `text_io` and
`vision` against a back end supporting only `text_io`. -/
def deniedMediationState : ControllerState :=
  { interface := some ⟨some ⟨some ["text_io", "vision"], none, []⟩⟩,
    model := some ⟨[("text_io", true)], true⟩,
    interface_reader := some (), interface_writer := some ⟨false⟩,
    model_reader := some (), model_writer := some ⟨false⟩,
    running := false, tasks := [] }

/-- C1 (counterexample): the incompatible verdict does not carry the list of
all missing required capabilities. Requirements `["vision", "audio"]` and
`["vision"]` against support `{"text_io": true}` have different
missing-required lists (`["vision", "audio"]` vs `["vision"]`), yet
`check_compatibility` returns the identical verdict for both — the loop
returns at the first unsupported capability, so the result names only
`'vision'` and cannot be carrying the full list. -/
theorem check_compatibility_collapses_missing_required_list :
    GPT2Model.check_compatibility [("text_io", true)]
        ⟨some ["vision", "audio"], none, []⟩
      = GPT2Model.check_compatibility [("text_io", true)]
        ⟨some ["vision"], none, []⟩
    ∧ missingRequired [("text_io", true)] ["vision", "audio"]
        = ["vision", "audio"]
    ∧ missingRequired [("text_io", true)] ["vision"] = ["vision"]
    ∧ (["vision", "audio"] : List String) ≠ ["vision"]
    ∧ GPT2Model.check_compatibility [("text_io", true)]
        ⟨some ["vision", "audio"], none, []⟩
      = (false, "Required capability 'vision' not supported") :=
  ⟨rfl, rfl, rfl, by decide, rfl⟩

/-- C1 (amended): when some required capability is unsupported,
`check_compatibility` returns the incompatible verdict naming the first
missing required capability (the head of the spec's missing-required
list), and `start_mediation` then returns `False` with the controller
state — in particular its task set — unchanged. -/
theorem check_compatibility_first_missing_required
    (support : List (String × Bool)) (caps : CapDict) (reqs : List String)
    (capability : String)
    (h₁ : caps.required_capabilities = some reqs)
    (h₂ : reqs.find? (fun c => ! supportsCap support c) = some capability) :
    GPT2Model.check_compatibility support caps
      = (false, "Required capability '" ++ capability ++ "' not supported")
    ∧ (missingRequired support reqs).head? = some capability
    ∧ ∀ s : ControllerState, s.interface = some ⟨some caps⟩ →
        s.model = some ⟨support, true⟩ →
        ModuleController.start_mediation s = (false, s) := by
  have hchk : GPT2Model.check_compatibility support caps
      = (false, "Required capability '" ++ capability ++ "' not supported") := by
    unfold GPT2Model.check_compatibility
    have hne : caps.isEmpty = false := by
      simp [CapDict.isEmpty, h₁]
    rw [hne, h₁]
    simp [h₂]
  refine ⟨hchk, ?_, ?_⟩
  · rw [missingRequired, head?_filter_eq_find?, h₂]
  · intro s hi hm
    have hcs : ModuleController.check_compatibility s
        = (false, "Required capability '" ++ capability ++ "' not supported") := by
      unfold ModuleController.check_compatibility
      rw [hi, hm]
      simpa using hchk
    unfold ModuleController.start_mediation
    rw [hi, hm]
    simp only [Option.isNone_some, Bool.or_self, Bool.false_or, if_false,
      Bool.false_eq_true]
    split
    · rfl
    · rw [hcs]
      simp

/-- C1 (witness): the spec's own example — requirements
`["text_io", "vision"]` against support `{"text_io": true}` — yields the
incompatible verdict naming `'vision'`, and `start_mediation` refuses. -/
theorem check_compatibility_first_missing_required_witness :
    GPT2Model.check_compatibility [("text_io", true)]
        ⟨some ["text_io", "vision"], none, []⟩
      = (false, "Required capability 'vision' not supported")
    ∧ ModuleController.start_mediation deniedMediationState
        = (false, deniedMediationState) :=
  ⟨(check_compatibility_first_missing_required [("text_io", true)]
      ⟨some ["text_io", "vision"], none, []⟩ ["text_io", "vision"] "vision"
      rfl rfl).1,
   (check_compatibility_first_missing_required [("text_io", true)]
      ⟨some ["text_io", "vision"], none, []⟩ ["text_io", "vision"] "vision"
      rfl rfl).2.2 deniedMediationState rfl rfl⟩

/-- A concrete mediation setup whose front end requires only `text_io` and
optionally `vision`, against the GPT-2 support map. -/
def grantedMediationState : ControllerState :=
  { interface := some ⟨some ⟨some ["text_io"], some ["vision"], []⟩⟩,
    model := some ⟨gpt2CAPABILITIES, true⟩,
    interface_reader := some (), interface_writer := some ⟨false⟩,
    model_reader := some (), model_writer := some ⟨false⟩,
    running := false, tasks := [] }

/-- C7: an empty capability dict — and a front end with no
`get_capabilities` at all — makes the compatibility check come back
compatible; whenever every required capability is supported the verdict is
compatible regardless of missing optional capabilities; and with both
sides connected, all four streams established and a compatible verdict,
`start_mediation` returns `True`, sets `running` and creates the two relay
tasks. -/
theorem compatibility_permissive_and_mediation_starts :
    (∀ support : List (String × Bool),
        GPT2Model.check_compatibility support CapDict.empty
          = (true, "No capability requirements specified"))
    ∧ (∀ (s : ControllerState) (i : InterfaceVal),
        s.interface = some i → i.get_capabilities = none → s.model.isSome →
        (ModuleController.check_compatibility s).1 = true)
    ∧ (∀ (support : List (String × Bool)) (caps : CapDict),
        (∀ c ∈ caps.required_capabilities.getD [], supportsCap support c = true) →
        (GPT2Model.check_compatibility support caps).1 = true)
    ∧ (∀ s : ControllerState,
        s.interface.isSome → s.model.isSome →
        s.interface_reader.isSome → s.interface_writer.isSome →
        s.model_reader.isSome → s.model_writer.isSome →
        (ModuleController.check_compatibility s).1 = true →
        ModuleController.start_mediation s
          = (true, { s with running := true,
                            tasks := s.tasks ++ [⟨false, false⟩, ⟨false, false⟩] })) := by
  have hempty : ∀ support : List (String × Bool),
      GPT2Model.check_compatibility support CapDict.empty
        = (true, "No capability requirements specified") := by
    intro support
    rfl
  refine ⟨hempty, ?_, ?_, ?_⟩
  · intro s i hi hnone hm
    obtain ⟨m, hm'⟩ := Option.isSome_iff_exists.mp hm
    unfold ModuleController.check_compatibility
    rw [hi, hm']
    cases hc : m.has_check_compatibility with
    | true => simp [hc, hnone, hempty]
    | false => simp [hc]
  · intro support caps hall
    unfold GPT2Model.check_compatibility
    by_cases he : caps.isEmpty
    · simp [he]
    · have hfind : (caps.required_capabilities.getD []).find?
          (fun capability => ! supportsCap support capability) = none := by
        rw [List.find?_eq_none]
        intro c hc
        simp [hall c hc]
      simp only [he, if_false, hfind, Bool.false_eq_true]
      split <;> rfl
  · intro s h₁ h₂ h₃ h₄ h₅ h₆ h₇
    obtain ⟨i, hi⟩ := Option.isSome_iff_exists.mp h₁
    obtain ⟨m, hm⟩ := Option.isSome_iff_exists.mp h₂
    obtain ⟨ir, hir⟩ := Option.isSome_iff_exists.mp h₃
    obtain ⟨iw, hiw⟩ := Option.isSome_iff_exists.mp h₄
    obtain ⟨mr, hmr⟩ := Option.isSome_iff_exists.mp h₅
    obtain ⟨mw, hmw⟩ := Option.isSome_iff_exists.mp h₆
    have hp : ModuleController.check_compatibility s
        = (true, (ModuleController.check_compatibility s).2) := by
      rw [← h₇]
    unfold ModuleController.start_mediation
    rw [hi, hm, hir, hiw, hmr, hmw, hp]
    simp

/-- C7 (witness): a front end requiring `text_io` with optional `vision`
against the GPT-2 support map is compatible (only an optional capability
is missing), and `start_mediation` starts — `running` set, two relay
tasks created. -/
theorem compatibility_permissive_and_mediation_starts_witness :
    (GPT2Model.check_compatibility gpt2CAPABILITIES
        ⟨some ["text_io"], some ["vision"], []⟩).1 = true
    ∧ ModuleController.start_mediation grantedMediationState
      = (true, { grantedMediationState with
                 running := true, tasks := [⟨false, false⟩, ⟨false, false⟩] }) := by
  constructor
  · exact compatibility_permissive_and_mediation_starts.2.2.1 gpt2CAPABILITIES
      ⟨some ["text_io"], some ["vision"], []⟩ (by decide)
  · exact compatibility_permissive_and_mediation_starts.2.2.2
      grantedMediationState rfl rfl rfl rfl rfl rfl (by decide)

/-- C8: `close()` resets the controller to the same final state from any
starting state — `running` false, every stream and component reference
cleared, the task set empty — so it is idempotent, safe to call
repeatedly, and safe before `start_mediation` ever succeeded. -/
theorem close_idempotent_and_resets (s : ControllerState) :
    ModuleController.close s
      = { interface := none, model := none, interface_reader := none,
          interface_writer := none, model_reader := none, model_writer := none,
          running := false, tasks := [] }
    ∧ ModuleController.close (ModuleController.close s)
      = ModuleController.close s
    ∧ (ModuleController.close s).running = false
    ∧ (ModuleController.close s).tasks = [] :=
  ⟨rfl, rfl, rfl, rfl⟩

/-- Setting a field makes lookup of that key return the new value, whether
the key was present (replaced in place) or absent (appended). -/
theorem lookupField_setField_self (f : List (String × Json)) (key : String)
    (v : Json) : lookupField (setField f key v) key = some v := by
  induction f with
  | nil => simp [setField, lookupField]
  | cons p rest ih =>
      obtain ⟨k, w⟩ := p
      by_cases h : k = key
      · simp [setField, lookupField, h]
      · simp [setField, lookupField, h, ih]

/-- Setting one field leaves lookup of every other key unchanged. -/
theorem lookupField_setField_ne (f : List (String × Json)) (key k : String)
    (v : Json) (hk : k ≠ key) :
    lookupField (setField f key v) k = lookupField f k := by
  induction f with
  | nil => simp [setField, lookupField, Ne.symm hk]
  | cons p rest ih =>
      obtain ⟨k', w⟩ := p
      by_cases h : k' = key
      · subst h
        simp [setField, lookupField, Ne.symm hk]
      · simp [setField, lookupField, h, ih]

/-- The back→front relay only ever forwards the raw line it read: whatever
`relay_to_interface`'s inspection step decides to forward is byte-identical
to the source line. -/
theorem forward_is_raw_text (m : Msg) (t : String)
    (h : (ModuleController.processToInterface m).forward = some t) :
    m.rawText = some t := by
  cases m with
  | notUtf8 bs => simp [ModuleController.processToInterface] at h
  | notJson u =>
      simp [ModuleController.processToInterface] at h
      simp [Msg.rawText, h]
  | json u j =>
      cases j with
      | obj fields =>
          rcases hh : ModuleController.handle_controller_notification fields
            with ⟨lv, sc⟩
          by_cases hmt : isStrVal (lookupField fields "message_type")
              "controller_notification" = true
          · by_cases hco : isStrVal (lookupField fields "notification_type")
                "controller_only" = true
            · simp [ModuleController.processToInterface, hmt, hco, hh] at h
            · simp [ModuleController.processToInterface, hmt, hco, hh] at h
              simp [Msg.rawText, h]
          · simp [ModuleController.processToInterface, hmt] at h
            simp [Msg.rawText, h]
      | null =>
          simp [ModuleController.processToInterface] at h
          simp [Msg.rawText, h]
      | bool b =>
          simp [ModuleController.processToInterface] at h
          simp [Msg.rawText, h]
      | num lit =>
          simp [ModuleController.processToInterface] at h
          simp [Msg.rawText, h]
      | str sv =>
          simp [ModuleController.processToInterface] at h
          simp [Msg.rawText, h]
      | arr elems =>
          simp [ModuleController.processToInterface] at h
          simp [Msg.rawText, h]

/-- C2: every front→back line that parses as a dict is forwarded re-encoded
with a `_controller_version` field set to the controller's protocol
version, while the back→front relay only ever forwards the raw bytes it
read — it never adds a `_controller_version` (or any other) field. -/
theorem controller_version_stamped_front_to_back_only :
    (∀ (t : String) (fields : List (String × Json)),
        ModuleController.processToModel (.json t (.obj fields))
          = some (.encoded (.obj (setField fields "_controller_version"
              (.str PROTOCOL_VERSION))))
        ∧ lookupField (setField fields "_controller_version"
              (.str PROTOCOL_VERSION)) "_controller_version"
            = some (.str PROTOCOL_VERSION))
    ∧ (∀ (m : Msg) (t : String),
        (ModuleController.processToInterface m).forward = some t →
        m.rawText = some t) :=
  ⟨fun _ fields => ⟨rfl, lookupField_setField_self fields _ _⟩,
   fun m t h => forward_is_raw_text m t h⟩

/-- C2 (witness): a concrete `text_generation` envelope is stamped with
`_controller_version = "1.0.0"` on the way front→back, and a concrete
`generation_result` line relayed back→front comes out as exactly the raw
line that was read. -/
theorem controller_version_stamped_front_to_back_only_witness :
    lookupField (setField [("message_type", Json.str "text_generation")]
        "_controller_version" (Json.str PROTOCOL_VERSION)) "_controller_version"
      = some (Json.str PROTOCOL_VERSION)
    ∧ (Msg.json "\x7b\"generated_text\": \"hi there\"\x7d"
        (Json.obj [("generated_text", Json.str "hi there")])).rawText
      = some "\x7b\"generated_text\": \"hi there\"\x7d" :=
  ⟨(controller_version_stamped_front_to_back_only.1
      "\x7b\"message_type\": \"text_generation\"\x7d"
      [("message_type", Json.str "text_generation")]).2,
   controller_version_stamped_front_to_back_only.2
      (Msg.json "\x7b\"generated_text\": \"hi there\"\x7d"
        (Json.obj [("generated_text", Json.str "hi there")]))
      "\x7b\"generated_text\": \"hi there\"\x7d" rfl⟩

/-- C4 (counterexample): not every field of the original envelope survives
unchanged, and the stamp is not always an append. An envelope that already
carries a `_controller_version` field, say `"0.9"`, has that field
overwritten in place with the controller's own version — the original
value is lost and the field list does not grow. -/
theorem controller_version_field_overwritten :
    ModuleController.processToModel
        (.json "\x7b\"_controller_version\": \"0.9\"\x7d"
          (.obj [("_controller_version", .str "0.9")]))
      = some (.encoded (.obj [("_controller_version", .str "1.0.0")]))
    ∧ lookupField [("_controller_version", Json.str "0.9")] "_controller_version"
        = some (.str "0.9")
    ∧ Json.str "0.9" ≠ Json.str "1.0.0" := by
  refine ⟨rfl, rfl, fun h => ?_⟩
  injection h with h'
  exact absurd h' (by decide)

/-- C4 (amended): front→back, a dict envelope is forwarded with every field
other than `_controller_version` — in particular `request_id` — holding
its original value, the only mutation being that `_controller_version` is
set (overwriting any incoming value of that one field); back→front, the
relay only ever forwards the raw line it read, so every field round-trips
unchanged. -/
theorem envelope_fields_preserved_except_stamp
    (t : String) (fields : List (String × Json)) (k : String)
    (hk : k ≠ "_controller_version") :
    ModuleController.processToModel (.json t (.obj fields))
      = some (.encoded (.obj (setField fields "_controller_version"
          (.str PROTOCOL_VERSION))))
    ∧ lookupField (setField fields "_controller_version"
          (.str PROTOCOL_VERSION)) k = lookupField fields k
    ∧ lookupField (setField fields "_controller_version"
          (.str PROTOCOL_VERSION)) "_controller_version"
        = some (.str PROTOCOL_VERSION)
    ∧ (∀ (m : Msg) (u : String),
        (ModuleController.processToInterface m).forward = some u →
        m.rawText = some u) :=
  ⟨rfl, lookupField_setField_ne fields _ k _ hk,
   lookupField_setField_self fields _ _,
   fun m u h => forward_is_raw_text m u h⟩

/-- C4 (witness): the spec's scenario 8 — a `text_generation` envelope with
`request_id = "r1"` keeps that exact `request_id` after front→back
stamping, and the echoed `generation_result` line relayed back→front is
forwarded as the raw line that was read. -/
theorem envelope_fields_preserved_except_stamp_witness :
    lookupField (setField
        [("message_type", Json.str "text_generation"),
         ("prompt", Json.str "hi"), ("request_id", Json.str "r1")]
        "_controller_version" (Json.str PROTOCOL_VERSION)) "request_id"
      = lookupField
        [("message_type", Json.str "text_generation"),
         ("prompt", Json.str "hi"), ("request_id", Json.str "r1")] "request_id"
    ∧ (Msg.json "\x7b\"generated_text\": \"hi there\", \"request_id\": \"r1\"\x7d"
        (Json.obj [("generated_text", Json.str "hi there"),
                   ("request_id", Json.str "r1")])).rawText
      = some "\x7b\"generated_text\": \"hi there\", \"request_id\": \"r1\"\x7d" :=
  ⟨(envelope_fields_preserved_except_stamp
      "\x7b\"message_type\": \"text_generation\", \"prompt\": \"hi\", \"request_id\": \"r1\"\x7d"
      [("message_type", Json.str "text_generation"),
       ("prompt", Json.str "hi"), ("request_id", Json.str "r1")]
      "request_id" (by decide)).2.1,
   (envelope_fields_preserved_except_stamp
      "\x7b\"message_type\": \"text_generation\", \"prompt\": \"hi\", \"request_id\": \"r1\"\x7d"
      [("message_type", Json.str "text_generation"),
       ("prompt", Json.str "hi"), ("request_id", Json.str "r1")]
      "request_id" (by decide)).2.2.2
      (Msg.json "\x7b\"generated_text\": \"hi there\", \"request_id\": \"r1\"\x7d"
        (Json.obj [("generated_text", Json.str "hi there"),
                   ("request_id", Json.str "r1")]))
      "\x7b\"generated_text\": \"hi there\", \"request_id\": \"r1\"\x7d" rfl⟩

/-- C9: front→back stamping keys solely on JSON shape. Any dict line —
including the empty dict, which has no `message_type` — gains a
`_controller_version` field, while a line parsing to any non-dict JSON
value is forwarded as its original raw bytes, with no stamp. -/
theorem stamping_keys_on_json_shape (t : String) :
    (∀ fields : List (String × Json),
        ModuleController.processToModel (.json t (.obj fields))
          = some (.encoded (.obj (setField fields "_controller_version"
              (.str PROTOCOL_VERSION))))
        ∧ lookupField (setField fields "_controller_version"
              (.str PROTOCOL_VERSION)) "_controller_version"
            = some (.str PROTOCOL_VERSION))
    ∧ ModuleController.processToModel (.json t (.obj []))
        = some (.encoded (.obj [("_controller_version", .str PROTOCOL_VERSION)]))
    ∧ (∀ j : Json, (∀ fields, j ≠ .obj fields) →
        ModuleController.processToModel (.json t j) = some (.bytes t)) := by
  refine ⟨fun fields => ⟨rfl, lookupField_setField_self fields _ _⟩, rfl, ?_⟩
  intro j hj
  cases j with
  | obj fields => exact absurd rfl (hj fields)
  | null => rfl
  | bool b => rfl
  | num lit => rfl
  | str sv => rfl
  | arr elems => rfl

/-- C9 (witness): the empty dict `\x7b\x7d` is stamped, while the array
`[]`, the string `"hi"`, the number `5` and `null` all pass through as
their original bytes, unstamped. -/
theorem stamping_keys_on_json_shape_witness :
    ModuleController.processToModel (.json "\x7b\x7d" (.obj []))
      = some (.encoded (.obj [("_controller_version", .str PROTOCOL_VERSION)]))
    ∧ ModuleController.processToModel (.json "[]" (.arr []))
      = some (.bytes "[]")
    ∧ ModuleController.processToModel (.json "\"hi\"" (.str "hi"))
      = some (.bytes "\"hi\"")
    ∧ ModuleController.processToModel (.json "5" (.num "5"))
      = some (.bytes "5")
    ∧ ModuleController.processToModel (.json "null" Json.null)
      = some (.bytes "null") :=
  ⟨(stamping_keys_on_json_shape "\x7b\x7d").2.1,
   (stamping_keys_on_json_shape "[]").2.2 (.arr []) (fun _ h => nomatch h),
   (stamping_keys_on_json_shape "\"hi\"").2.2 (.str "hi") (fun _ h => nomatch h),
   (stamping_keys_on_json_shape "5").2.2 (.num "5") (fun _ h => nomatch h),
   (stamping_keys_on_json_shape "null").2.2 Json.null (fun _ h => nomatch h)⟩

/-- The relay state at the start of a fresh session: `running`, destination
open, no close scheduled, nothing logged or sent. -/
def freshRelayState : RelayState := ⟨true, false, false, [], []⟩

/-- C3 (counterexample): a line whose bytes are not valid UTF-8 fails
structural decoding (it is certainly not valid JSON), yet it is not
forwarded: `data.decode('utf-8')` raises outside the
`json.JSONDecodeError` handler, so the iteration-level handler logs an
error and the loop moves on without writing. Nothing reaches the
destination for that line — though the loop does continue, as the next
(UTF-8, non-JSON) line still arrives. -/
theorem non_utf8_line_dropped :
    ModuleController.relay_to_model freshRelayState
        [.data (.notUtf8 [255]), .data (.notJson "hello")]
      = { freshRelayState with logs := [.error], sent := [.bytes "hello"] }
    ∧ (ModuleController.relay_to_model freshRelayState
        [.data (.notUtf8 [255])]).sent = [] :=
  ⟨rfl, rfl⟩

/-- C3 (amended): in both directions, a line that decodes as UTF-8 text but
is not valid JSON is forwarded byte-identical and the loop continues with
the next message; a line that is not valid UTF-8 raises outside the JSON
handler, so it is logged and dropped — the loop still continues rather
than terminating or raising. -/
theorem undecodable_lines_forwarded_or_logged
    (s : RelayState) (t : String) (bs : List Nat) (rest : List ReadEvent)
    (hr : s.running = true) (hd : s.destClosing = false) :
    ModuleController.relay_to_model s (.data (.notJson t) :: rest)
      = ModuleController.relay_to_model
          { s with sent := s.sent ++ [.bytes t] } rest
    ∧ ModuleController.relay_to_interface s (.data (.notJson t) :: rest)
      = ModuleController.relay_to_interface
          { s with sent := s.sent ++ [.bytes t] } rest
    ∧ ModuleController.relay_to_model s (.data (.notUtf8 bs) :: rest)
      = ModuleController.relay_to_model
          { s with logs := s.logs ++ [.error] } rest
    ∧ ModuleController.relay_to_interface s (.data (.notUtf8 bs) :: rest)
      = ModuleController.relay_to_interface
          { s with logs := s.logs ++ [.error] } rest := by
  refine ⟨?_, ?_, ?_, ?_⟩
  · simp [ModuleController.relay_to_model, hr, hd, ModuleController.processToModel]
  · simp [ModuleController.relay_to_interface, hr, hd,
      ModuleController.processToInterface]
  · simp [ModuleController.relay_to_model, hr, ModuleController.processToModel]
  · simp [ModuleController.relay_to_interface, hr,
      ModuleController.processToInterface]

/-- C3 (witness): from a fresh session state, the free-text line `"hello"`
is forwarded byte-identical in both directions and the loop runs on,
while the non-UTF-8 line `[255, 254]` is logged and dropped in both
directions with the loop still continuing. -/
theorem undecodable_lines_forwarded_or_logged_witness :
    ModuleController.relay_to_model freshRelayState [.data (.notJson "hello")]
      = ModuleController.relay_to_model
          { freshRelayState with sent := [.bytes "hello"] } []
    ∧ ModuleController.relay_to_interface freshRelayState
        [.data (.notUtf8 [255, 254])]
      = ModuleController.relay_to_interface
          { freshRelayState with logs := [.error] } [] := by
  have h := undecodable_lines_forwarded_or_logged freshRelayState "hello"
    [255, 254] [] rfl rfl
  exact ⟨h.1, h.2.2.2⟩

/-- C5: in either direction, a read yielding end-of-stream (an empty read)
makes that relay loop set the shared `running` flag false and mark the
destination writer closing before exiting; and any loop that observes
`running = false` stops without reading or writing anything further —
the cooperative-shutdown signal. -/
theorem eof_read_signals_shutdown
    (s : RelayState) (rest : List ReadEvent) (hr : s.running = true) :
    ModuleController.relay_to_model s (.eof :: rest)
      = { s with running := false, destClosing := true }
    ∧ ModuleController.relay_to_interface s (.eof :: rest)
      = { s with running := false, destClosing := true }
    ∧ (∀ (s' : RelayState) (evs : List ReadEvent), s'.running = false →
        ModuleController.relay_to_model s' evs = s'
        ∧ ModuleController.relay_to_interface s' evs = s') := by
  refine ⟨by simp [ModuleController.relay_to_model, hr],
          by simp [ModuleController.relay_to_interface, hr], ?_⟩
  intro s' evs h'
  cases evs with
  | nil => exact ⟨rfl, rfl⟩
  | cons ev r =>
      exact ⟨by simp [ModuleController.relay_to_model, h'],
             by simp [ModuleController.relay_to_interface, h']⟩

/-- C5 (witness): an empty read in a fresh session flips `running` off and
closes the destination, and the other direction — observing
`running = false` — exits without touching its pending data. -/
theorem eof_read_signals_shutdown_witness :
    ModuleController.relay_to_model freshRelayState [.eof]
      = { freshRelayState with running := false, destClosing := true }
    ∧ ModuleController.relay_to_interface
        { freshRelayState with running := false } [.data (.notJson "pending")]
      = { freshRelayState with running := false } :=
  ⟨(eof_read_signals_shutdown freshRelayState [] rfl).1,
   ((eof_read_signals_shutdown freshRelayState [] rfl).2.2
      { freshRelayState with running := false }
      [.data (.notJson "pending")] rfl).2⟩

/-- An option holding the given string under `isStrVal` is exactly
`some (.str a)`. -/
theorem isStrVal_eq_of_true (v : Option Json) (a : String)
    (h : isStrVal v a = true) : v = some (.str a) := by
  cases v with
  | none => exact absurd h (by simp [isStrVal])
  | some j =>
      cases j with
      | str s₀ =>
          simp only [isStrVal, decide_eq_true_eq] at h
          rw [h]
      | null => exact absurd h (by simp [isStrVal])
      | bool b => exact absurd h (by simp [isStrVal])
      | num lit => exact absurd h (by simp [isStrVal])
      | arr elems => exact absurd h (by simp [isStrVal])
      | obj fields => exact absurd h (by simp [isStrVal])

/-- C6: for a back→front `controller_notification` envelope: a
`critical_error` notification is logged at the highest severity, schedules
`close()` of the session, and is still forwarded; the notification is
withheld from the interface exactly when `notification_type` is
`"controller_only"`; and in the running loop a `critical_error`
notification is written through to the interface with close scheduled. -/
theorem controller_notification_handling
    (t : String) (fields : List (String × Json))
    (hmt : isStrVal (lookupField fields "message_type")
        "controller_notification" = true) :
    (isStrVal (lookupField fields "notification_type") "critical_error" = true →
        ModuleController.handle_controller_notification fields = (.critical, true)
        ∧ ModuleController.processToInterface (.json t (.obj fields))
            = ⟨[.critical], true, some t⟩)
    ∧ ((ModuleController.processToInterface (.json t (.obj fields))).forward = none
        ↔ isStrVal (lookupField fields "notification_type") "controller_only" = true)
    ∧ (∀ (s : RelayState) (rest : List ReadEvent),
        s.running = true → s.destClosing = false →
        isStrVal (lookupField fields "notification_type") "critical_error" = true →
        ModuleController.relay_to_interface s
            (.data (.json t (.obj fields)) :: rest)
          = ModuleController.relay_to_interface
              { s with logs := s.logs ++ [.critical], closeScheduled := true,
                       sent := s.sent ++ [.bytes t] } rest) := by
  refine ⟨?_, ?_, ?_⟩
  · intro hce
    have hv := isStrVal_eq_of_true _ _ hce
    have hco : isStrVal (lookupField fields "notification_type")
        "controller_only" = false := by
      rw [hv]
      rfl
    have hh : ModuleController.handle_controller_notification fields
        = (.critical, true) := by
      simp [ModuleController.handle_controller_notification, hce]
    exact ⟨hh, by simp [ModuleController.processToInterface, hmt, hco, hh]⟩
  · by_cases hco : isStrVal (lookupField fields "notification_type")
        "controller_only" = true
    · have hv := isStrVal_eq_of_true _ _ hco
      have hh : ModuleController.handle_controller_notification fields
          = (.debug, false) := by
        simp [ModuleController.handle_controller_notification, hv, isStrVal]
      simp [ModuleController.processToInterface, hmt, hco, hh]
    · rcases hh : ModuleController.handle_controller_notification fields
        with ⟨lv, sc⟩
      simp [ModuleController.processToInterface, hmt, hco, hh]
  · intro s rest hr hd hce
    have hv := isStrVal_eq_of_true _ _ hce
    have hco : isStrVal (lookupField fields "notification_type")
        "controller_only" = false := by
      rw [hv]
      rfl
    have hh : ModuleController.handle_controller_notification fields
        = (.critical, true) := by
      simp [ModuleController.handle_controller_notification, hce]
    simp [ModuleController.relay_to_interface, hr, hd,
      ModuleController.processToInterface, hmt, hco, hh]

/-- C6 (witness): a concrete `critical_error` notification is logged
critical, schedules close and is forwarded; a concrete `controller_only`
notification is withheld; a concrete `status` notification is forwarded. -/
theorem controller_notification_handling_witness :
    ModuleController.processToInterface (.json "n1"
        (.obj [("message_type", .str "controller_notification"),
               ("notification_type", .str "critical_error")]))
      = ⟨[.critical], true, some "n1"⟩
    ∧ (ModuleController.processToInterface (.json "n2"
        (.obj [("message_type", .str "controller_notification"),
               ("notification_type", .str "controller_only")]))).forward = none
    ∧ (ModuleController.processToInterface (.json "n3"
        (.obj [("message_type", .str "controller_notification"),
               ("notification_type", .str "status")]))).forward ≠ none :=
  ⟨((controller_notification_handling "n1"
      [("message_type", .str "controller_notification"),
       ("notification_type", .str "critical_error")] rfl).1 rfl).2,
   (controller_notification_handling "n2"
      [("message_type", .str "controller_notification"),
       ("notification_type", .str "controller_only")] rfl).2.1.mpr rfl,
   fun h => nomatch ((controller_notification_handling "n3"
      [("message_type", .str "controller_notification"),
       ("notification_type", .str "status")] rfl).2.1.mp h)⟩

/-- `relay_to_model` never schedules a session close, whatever it reads. -/
theorem relay_to_model_closeScheduled (evs : List ReadEvent) :
    ∀ s : RelayState,
      (ModuleController.relay_to_model s evs).closeScheduled
        = s.closeScheduled := by
  induction evs with
  | nil => intro s; rfl
  | cons ev rest ih =>
      intro s
      by_cases hr : s.running = true
      · cases ev with
        | eof => simp [ModuleController.relay_to_model, hr]
        | data m =>
            cases hpm : ModuleController.processToModel m with
            | none => simp [ModuleController.relay_to_model, hr, hpm, ih]
            | some out =>
                by_cases hd : s.destClosing = true
                · simp [ModuleController.relay_to_model, hr, hpm, hd]
                · simp [ModuleController.relay_to_model, hr, hpm, hd, ih]
      · simp [ModuleController.relay_to_model, hr]

/-- C10: notification interception exists only back→front. A
`controller_notification` envelope — whatever its `notification_type` —
sent front→back is stamped and forwarded to the back end like any other
dict envelope, the loop simply continuing; and `relay_to_model` never
schedules a session close for anything it reads. -/
theorem front_to_back_no_notification_interception
    (s : RelayState) (t : String) (fields : List (String × Json))
    (rest : List ReadEvent)
    (_hmt : isStrVal (lookupField fields "message_type")
        "controller_notification" = true)
    (hr : s.running = true) (hd : s.destClosing = false) :
    ModuleController.relay_to_model s (.data (.json t (.obj fields)) :: rest)
      = ModuleController.relay_to_model
          { s with sent := s.sent ++ [.encoded (.obj (setField fields
              "_controller_version" (.str PROTOCOL_VERSION)))] } rest
    ∧ (∀ (s' : RelayState) (evs : List ReadEvent),
        (ModuleController.relay_to_model s' evs).closeScheduled
          = s'.closeScheduled) := by
  refine ⟨?_, fun s' evs => relay_to_model_closeScheduled evs s'⟩
  simp [ModuleController.relay_to_model, hr, hd, ModuleController.processToModel]

/-- C10 (witness): a concrete `critical_error` controller notification sent
front→back from a fresh session is stamped and forwarded, with no close
scheduled. -/
theorem front_to_back_no_notification_interception_witness :
    ModuleController.relay_to_model freshRelayState
        [.data (.json "n4"
          (.obj [("message_type", .str "controller_notification"),
                 ("notification_type", .str "critical_error")]))]
      = ModuleController.relay_to_model
          { freshRelayState with sent := [.encoded (.obj (setField
              [("message_type", .str "controller_notification"),
               ("notification_type", .str "critical_error")]
              "_controller_version" (.str PROTOCOL_VERSION)))] } []
    ∧ (ModuleController.relay_to_model freshRelayState
        [.data (.json "n4"
          (.obj [("message_type", .str "controller_notification"),
                 ("notification_type", .str "critical_error")]))]).closeScheduled
      = false :=
  ⟨(front_to_back_no_notification_interception freshRelayState "n4"
      [("message_type", .str "controller_notification"),
       ("notification_type", .str "critical_error")] [] rfl rfl rfl).1,
   (front_to_back_no_notification_interception freshRelayState "n4"
      [("message_type", .str "controller_notification"),
       ("notification_type", .str "critical_error")] [] rfl rfl rfl).2
      freshRelayState
      [.data (.json "n4"
        (.obj [("message_type", .str "controller_notification"),
               ("notification_type", .str "critical_error")]))]⟩

end ModularAI
